import Mathlib

/-!
Verification of the Repository List Synchronization & Windowing Engine of
gh-manager-cli.

The definitions below are a shallow embedding of the TypeScript sources:

* `src/ui/hooks/useVirtualList.ts` — the virtual window calculation with
  hysteresis (the `useMemo` body, lines 90-131, with the two React refs
  `lastCursorRef` / `lastWindowRef` made explicit as a state record);
* `src/ui/views/RepoList.tsx` — the page accumulators (`fetchPage`,
  `fetchSearchPage`, `fetchStarredRepositories`), the mutation handlers
  (`confirmDeleteNow`, `handleUnstar`, `handleStar`,
  `handleVisibilityChange`), the fetch-policy resolution effects and the
  infinite-scroll prefetch effect;
* `src/services/github/cache.ts` — the Apollo normalized-cache updates
  (`updateCacheAfterDelete`, `updateCacheAfterVisibilityChange`);
* `src/config/themes.ts` — the constants `PREFETCH_THRESHOLD = 0.8` and
  `DEFAULT_APOLLO_TTL_MS = 30 * 60 * 1000`.

JavaScript `Math.max(0, a - b)` on non-negative integers is rendered as
truncated `Nat` subtraction `a - b`; counters that the code clamps with
`Math.max(0, c - 1)` are kept as `Int` with an explicit `max 0` so the
clamping itself stays visible.  React `setX` calls become functional record
updates.  UI-only state (modals, toasts, cursor adjustment, loading
spinners) that no claim mentions is omitted.
-/

/-! ## Virtual window calculator (src/ui/hooks/useVirtualList.ts) -/

/-- A visible window over the item list: `start` inclusive, `stop`
exclusive.  In the source this is the `{ start, end }` object returned by
the `useMemo` in `useVirtualList`; `end` is a Lean keyword, so the field is
named `stop`. -/
structure Window where
  start : Nat
  stop : Nat
deriving DecidableEq, Repr

/-- The two React refs of `useVirtualList`: `lastCursorRef` and
`lastWindowRef` (lines 82-83).  `lastCursorRef` is initialised with the
first cursor value and `lastWindowRef` with `{ start: 0, end: 0 }`. -/
structure VirtualListRefs where
  lastCursor : Nat
  lastWindow : Window
deriving DecidableEq, Repr

/-- Lines 96-106 of useVirtualList.ts: the cursor-centered window formula.
`startPos = Math.max(0, cursor - halfVisible - overscan)` then
`startPos = Math.min(startPos, Math.max(0, totalCount - visibleCount))`,
`endPos = Math.min(totalCount, startPos + visibleCount + overscan * 2)`.
Both `Math.max(0, ·)` become truncated `Nat` subtraction. -/
def cursorCenteredWindow (cursor totalCount visibleCnt overscan : Nat) : Window :=
  let halfVisible := visibleCnt / 2
  let startPos := min (cursor - halfVisible - overscan) (totalCount - visibleCnt)
  let endPos := min totalCount (startPos + visibleCnt + overscan * 2)
  ⟨startPos, endPos⟩

/-- One invocation of the windowing logic of `useVirtualList`
(lines 86-123): computes `visibleCount = Math.max(1, Math.floor(
containerHeight / itemHeight))`, returns `{0, totalCount}` when everything
fits (without touching the refs), otherwise recomputes the cursor-centered
window; if the cursor moved fewer than 3 positions since the last
recomputation and still lies inside the previously returned window, the
previous window is returned and the refs stay unchanged; otherwise the
fresh window is returned and both refs are updated. -/
def useVirtualListWindow (cursor itemCount itemHeight containerHeight overscan : Nat)
    (refs : VirtualListRefs) : Window × VirtualListRefs :=
  let visibleCnt := max 1 (containerHeight / itemHeight)
  if itemCount ≤ visibleCnt then
    (⟨0, itemCount⟩, refs)
  else
    let w := cursorCenteredWindow cursor itemCount visibleCnt overscan
    let cursorDelta := ((cursor : Int) - (refs.lastCursor : Int)).natAbs
    if cursorDelta < 3 ∧ refs.lastWindow.start ≤ cursor ∧ cursor < refs.lastWindow.stop then
      (refs.lastWindow, refs)
    else
      (w, ⟨cursor, w⟩)

/-! ## Prefetch trigger (RepoList.tsx lines 1896-1919, themes.ts line 137) -/

/-- Line 1899 of RepoList.tsx:
`Math.floor(visibleItems.length * PREFETCH_THRESHOLD)` with
`PREFETCH_THRESHOLD = 0.8`; on natural inputs `Math.floor(n * 0.8)` equals
`n * 4 / 5`. -/
def prefetchThreshold (loadedCount : Nat) : Nat :=
  loadedCount * 4 / 5

/-- Line 1900: `nearEnd = visibleItems.length > 0 && cursor >= prefetchThreshold`. -/
def nearEnd (cursor loadedCount : Nat) : Bool :=
  decide (0 < loadedCount) && decide (prefetchThreshold loadedCount ≤ cursor)

/-- The per-source firing condition of the infinite-scroll effect
(lines 1902-1917): `!loading && hasNextPage && nearEnd`.  For the owned
source the code checks `!loading && !loadingMore`; `loading` here stands
for that combined per-source loading flag. -/
def prefetchFires (cursor loadedCount : Nat) (hasNextPage loading : Bool) : Bool :=
  !loading && hasNextPage && nearEnd cursor loadedCount

/-- The Prefetch Trigger contract in the words of the specification:
`hasNextPage && !loading && loadedCount > 0 && cursor >= floor(loadedCount * 0.8)`. -/
def shouldPrefetch (cursor loadedCount : Nat) (hasNextPage loading : Bool) : Bool :=
  hasNextPage && !loading && decide (0 < loadedCount) &&
    decide (loadedCount * 4 / 5 ≤ cursor)

/-! ## Data model (src/types.ts `RepoNode`, restricted to the fields the
claims touch; the handlers' `{ ...r, field: v }` spreads carry every other
field unchanged, which the record updates below mirror) -/

/-- Repository visibility enum (`'PUBLIC' | 'PRIVATE' | 'INTERNAL'`). -/
inductive Visibility
  | PUBLIC
  | PRIVATE
  | INTERNAL
deriving DecidableEq, Repr

/-- The active visibility filter of RepoList
(`'all' | 'public' | 'private'`, line 857); `public`/`private` are Lean
keywords, so the constructors are prefixed with `v`. -/
inductive VisibilityFilter
  | vAll
  | vPublic
  | vPrivate
deriving DecidableEq, Repr

/-- A repository record, keyed by its stable `id`. -/
structure RepoNode where
  id : String
  viewerHasStarred : Bool
  stargazerCount : Int
  visibility : Visibility
  isPrivate : Bool
deriving DecidableEq, Repr

/-! ## Normalized object cache (src/services/github/cache.ts)

The Apollo normalized cache is modelled as an association list from cache
ids (`Repository:<id>`, here just the repository id) to records. -/

/-- Point read from the normalized cache. -/
def readRecord (cache : List (String × RepoNode)) (id : String) : Option RepoNode :=
  (cache.find? (fun e => e.1 == id)).map (fun e => e.2)

/-- Lines 6-17 of cache.ts, `updateCacheAfterDelete`:
`cache.evict({ id }); cache.gc()` — the entry is removed. -/
def updateCacheAfterDelete (cache : List (String × RepoNode)) (repositoryId : String) :
    List (String × RepoNode) :=
  cache.filter (fun e => e.1 != repositoryId)

/-- The field patch of `updateCacheAfterVisibilityChange` (cache.ts lines
48-55) and of the in-place `updateRepo` of `handleVisibilityChange`
(RepoList.tsx lines 726-727): `visibility := newVisibility`,
`isPrivate := (newVisibility === 'PRIVATE')`. -/
def visibilityPatch (newVisibility : Visibility) (r : RepoNode) : RepoNode :=
  { r with visibility := newVisibility,
           isPrivate := newVisibility == Visibility.PRIVATE }

/-- Lines 36-59 of cache.ts, `updateCacheAfterVisibilityChange`:
`cache.modify({ id, fields: { visibility, isPrivate } })`; `modify` is a
no-op when the id is absent. -/
def updateCacheAfterVisibilityChange (cache : List (String × RepoNode))
    (repositoryId : String) (visibility : Visibility) : List (String × RepoNode) :=
  cache.map (fun e => if e.1 == repositoryId then (e.1, visibilityPatch visibility e.2) else e)

/-! ## Mutation reconciliation state (RepoList.tsx)

The React state atoms the mutation handlers write: the three accumulated
item lists (`items`, `searchItems`, `starredItems`), their total counts,
and the normalized cache.  Counts are `Int` so that the code's
`Math.max(0, c - 1)` clamping stays explicit. -/

structure RepoListState where
  items : List RepoNode
  searchItems : List RepoNode
  starredItems : List RepoNode
  totalCount : Int
  searchTotalCount : Int
  starredTotalCount : Int
  cache : List (String × RepoNode)
deriving DecidableEq, Repr

/-- Lines 806-842 of RepoList.tsx, `confirmDeleteNow`, after the REST
delete succeeded: `updateCacheAfterDelete`, filter `targetId` out of
`items` and `searchItems`, `setTotalCount(c => Math.max(0, c - 1))`, and
when `searchActive` also `setSearchTotalCount(c => Math.max(0, c - 1))`.
`starredItems`/`starredTotalCount` are not written.  (Modal and cursor
bookkeeping omitted.) -/
def confirmDeleteNow (targetId : String) (searchActive : Bool) (st : RepoListState) :
    RepoListState :=
  { st with
    cache := updateCacheAfterDelete st.cache targetId
    items := st.items.filter (fun r => r.id != targetId)
    searchItems := st.searchItems.filter (fun r => r.id != targetId)
    totalCount := max 0 (st.totalCount - 1)
    searchTotalCount :=
      if searchActive then max 0 (st.searchTotalCount - 1) else st.searchTotalCount }

/-- Lines 314-336 of RepoList.tsx, `handleUnstar`, after the remote unstar
succeeded: `setStarredItems(prev => prev.filter(r => r.id !== targetId))`
and `setStarredTotalCount(c => Math.max(0, c - 1))`.  No other list and no
cache update appears in the handler.  (Modal state and cursor adjustment
omitted.) -/
def handleUnstar (targetId : String) (st : RepoListState) : RepoListState :=
  { st with
    starredItems := st.starredItems.filter (fun r => r.id != targetId)
    starredTotalCount := max 0 (st.starredTotalCount - 1) }

/-- Lines 366-398 of RepoList.tsx, `handleStar` (star toggle outside the
starred view), after the remote call succeeded: `updateRepo` flips
`viewerHasStarred` and adjusts `stargazerCount` by ±1 for the target id,
applied to `items` and `searchItems` only. -/
def handleStar (targetId : String) (isStarred : Bool) (st : RepoListState) : RepoListState :=
  let updateRepo := fun (r : RepoNode) =>
    if r.id == targetId then
      { r with viewerHasStarred := !isStarred,
               stargazerCount := r.stargazerCount + (if isStarred then -1 else 1) }
    else r
  { st with
    items := st.items.map updateRepo
    searchItems := st.searchItems.map updateRepo }

/-- Lines 692-738 of RepoList.tsx, `handleVisibilityChange`, after the
remote visibility change succeeded: update the cache; if the active
visibility filter now excludes the record
(`(filter === 'public' && vis !== 'PUBLIC') ||
  (filter === 'private' && vis !== 'PRIVATE' && vis !== 'INTERNAL')`),
remove it from `items` and `searchItems` and decrement `totalCount`
(clamped), plus `searchTotalCount` when `searchActive`; otherwise patch it
in place in `items` and `searchItems`.  `starredItems` is not written in
either branch. -/
def handleVisibilityChange (targetId : String) (newVisibility : Visibility)
    (visibilityFilter : VisibilityFilter) (searchActive : Bool) (st : RepoListState) :
    RepoListState :=
  let cache := updateCacheAfterVisibilityChange st.cache targetId newVisibility
  let shouldRemove :=
    (visibilityFilter = VisibilityFilter.vPublic ∧ newVisibility ≠ Visibility.PUBLIC) ∨
    (visibilityFilter = VisibilityFilter.vPrivate ∧ newVisibility ≠ Visibility.PRIVATE ∧
      newVisibility ≠ Visibility.INTERNAL)
  if shouldRemove then
    { st with
      cache := cache
      items := st.items.filter (fun r => r.id != targetId)
      searchItems := st.searchItems.filter (fun r => r.id != targetId)
      totalCount := max 0 (st.totalCount - 1)
      searchTotalCount :=
        if searchActive then max 0 (st.searchTotalCount - 1) else st.searchTotalCount }
  else
    let updateRepo := fun (r : RepoNode) =>
      if r.id == targetId then visibilityPatch newVisibility r else r
    { st with
      cache := cache
      items := st.items.map updateRepo
      searchItems := st.searchItems.map updateRepo }

/-! ## Page accumulators (RepoList.tsx `fetchPage`, `fetchSearchPage`,
`fetchStarredRepositories`)

Each source's React state atoms (`items`/`endCursor`/`hasNextPage`/
`totalCount` plus the shared `error` string) form one accumulator record.
The transport call is abstracted as an `Except` outcome; the loading flags
set in `finally` are omitted (no claim mentions them).  A fetch returns the
new accumulator state together with a `Bool` recording whether
`markFetched` was invoked on that code path.  The JS first-page test
`!after` is rendered as `after.isNone`: pagination cursors are opaque
non-empty server strings, so falsiness coincides with null. -/

structure ReposPageResult where
  nodes : List RepoNode
  endCursor : Option String
  hasNextPage : Bool
  totalCount : Int
deriving DecidableEq, Repr

structure SourceAccum where
  items : List RepoNode
  endCursor : Option String
  hasNextPage : Bool
  totalCount : Int
  error : Option String
deriving DecidableEq, Repr

/-- Lines 869-987 of RepoList.tsx, `fetchPage` (owned/org source).
Success (lines 921-953): `setItems(prev => (reset || !after ? page.nodes :
[...prev, ...page.nodes]))`, set `endCursor`/`hasNextPage`/`totalCount`
from the page, `setError(null)`, and `markFetched(key)` when `!after`.
Failure (lines 971-980): only `setError('Failed to load repositories.
Check network or token.')`. -/
def fetchPage (after : Option String) (reset : Bool)
    (outcome : Except String ReposPageResult) (st : SourceAccum) : SourceAccum × Bool :=
  match outcome with
  | Except.ok page =>
      ({ items := if reset || after.isNone then page.nodes else st.items ++ page.nodes
         endCursor := page.endCursor
         hasNextPage := page.hasNextPage
         totalCount := page.totalCount
         error := none }, after.isNone)
  | Except.error _ =>
      ({ st with error := some "Failed to load repositories. Check network or token." }, false)

/-- Lines 990-1052 of RepoList.tsx, `fetchSearchPage`.  Success (lines
1023-1040): same accumulation on the search atoms, `markFetched(key)` when
`!after` (with the search key), `setError(null)`.  Failure (lines
1042-1048): only `setError('Failed to search: ...')`. -/
def fetchSearchPage (after : Option String) (reset : Bool)
    (outcome : Except String ReposPageResult) (st : SourceAccum) : SourceAccum × Bool :=
  match outcome with
  | Except.ok page =>
      ({ items := if reset || after.isNone then page.nodes else st.items ++ page.nodes
         endCursor := page.endCursor
         hasNextPage := page.hasNextPage
         totalCount := page.totalCount
         error := none }, after.isNone)
  | Except.error msg =>
      ({ st with error := some ("Failed to search: " ++ msg) }, false)

/-- Lines 291-311 of RepoList.tsx, `fetchStarredRepositories`.  Success
(lines 296-299): same accumulation on the starred atoms; the function
contains no `markFetched` call and does not clear `error`.  Failure (lines
307-310): `setError(e.message || 'Failed to fetch starred repositories')`
(JS `||` falls back on the empty string). -/
def fetchStarredRepositories (after : Option String) (reset : Bool)
    (outcome : Except String ReposPageResult) (st : SourceAccum) : SourceAccum × Bool :=
  match outcome with
  | Except.ok page =>
      ({ items := if reset || after.isNone then page.nodes else st.items ++ page.nodes
         endCursor := page.endCursor
         hasNextPage := page.hasNextPage
         totalCount := page.totalCount
         error := st.error }, false)
  | Except.error msg =>
      ({ st with
         error := some (if msg = "" then "Failed to fetch starred repositories" else msg) },
       false)

/-! ## Freshness store and fetch-policy resolution

The freshness module `src/services/apolloMeta` (`isFresh`, `markFetched`,
`makeApolloKey`, `makeSearchKey`) is imported by RepoList.tsx but its
source is not part of this repository snapshot; only its callers are.  It
is therefore modelled from the specification.  The policy-resolution call
sites themselves are in RepoList.tsx and are embedded from the source. -/

/-- Thirty-minute default TTL, `DEFAULT_APOLLO_TTL_MS` in
src/config/themes.ts line 149. -/
def DEFAULT_APOLLO_TTL_MS : Int := 30 * 60 * 1000

/-- Modelled from the spec: the Freshness Store operation
`isFresh(key, ttlMs)` of the missing module `src/services/apolloMeta`
— "returns false if no record exists for `key`, or if
`now - record.timestamp > ttlMs`; otherwise true".  The persisted
key→timestamp map is an association list and `now` an explicit argument. -/
def isFresh (store : List (String × Int)) (now : Int) (key : String) (ttlMs : Int) : Bool :=
  match store.find? (fun e => e.1 == key) with
  | none => false
  | some e => decide (now - e.2 ≤ ttlMs)

/-- Apollo fetch policy (`'cache-first' | 'network-only'`). -/
inductive FetchPolicy
  | cacheFirst
  | networkOnly
deriving DecidableEq, Repr

/-- RepoList.tsx lines 1097-1123 (mount/context effect) and 1130-1147
(sort-change effect, list branch): for a first-page list fetch
`policy = isFresh(key) ? 'cache-first' : 'network-only'` with the default
(30-minute) TTL. -/
def listFirstPagePolicy (store : List (String × Int)) (now : Int) (key : String) :
    FetchPolicy :=
  if isFresh store now key DEFAULT_APOLLO_TTL_MS then FetchPolicy.cacheFirst
  else FetchPolicy.networkOnly

/-- RepoList.tsx lines 1152-1163 (sort-change effect, search branch),
1200-1214 and 2590-2601 (debounced search): for a first-page search fetch
`policy = isFresh(key, 90 * 1000) ? 'cache-first' : 'network-only'`. -/
def searchFirstPagePolicy (store : List (String × Int)) (now : Int) (key : String) :
    FetchPolicy :=
  if isFresh store now key (90 * 1000) then FetchPolicy.cacheFirst
  else FetchPolicy.networkOnly

/-- RepoList.tsx line 1522: the manual refresh key handler always calls
`fetchPage(null, true, true, undefined, 'network-only')`. -/
def manualRefreshPolicy : FetchPolicy := FetchPolicy.networkOnly

/-! ## Reconciliation operation sequences (for the totalCount invariant) -/

/-- The three reconciliation operations that decrement a stored total
count: `confirmDeleteNow`, `handleUnstar` (starred view), and a
`handleVisibilityChange` (which decrements only in its removal branch). -/
inductive ReconcileOp
  | delete (targetId : String) (searchActive : Bool)
  | unstar (targetId : String)
  | visibilityChange (targetId : String) (newVisibility : Visibility)
      (visibilityFilter : VisibilityFilter) (searchActive : Bool)
deriving DecidableEq, Repr

/-- Apply one reconciliation operation via the corresponding handler. -/
def applyReconcileOp (op : ReconcileOp) (st : RepoListState) : RepoListState :=
  match op with
  | ReconcileOp.delete targetId searchActive => confirmDeleteNow targetId searchActive st
  | ReconcileOp.unstar targetId => handleUnstar targetId st
  | ReconcileOp.visibilityChange targetId newVisibility visibilityFilter searchActive =>
      handleVisibilityChange targetId newVisibility visibilityFilter searchActive st

/-- Apply a sequence of reconciliation operations. -/
def runReconcileOps (ops : List ReconcileOp) (st : RepoListState) : RepoListState :=
  ops.foldl (fun s op => applyReconcileOp op s) st

/-! ## Theorems -/

/-- C1 (amended).  The window invariant of the virtual window calculation:
when `itemCount = 0` the returned window is `{0, 0}`; for `itemCount > 0`,
`cursor ∈ [0, itemCount)`, `itemHeight > 0`, `containerHeight > 0` the
returned window satisfies `0 ≤ start ≤ cursor < end ≤ itemCount`,
`end - start ≤ itemCount` and `end - start ≤ visibleCapacity + 2·overscan`
— provided the stored previous window still fits the current item count
(`lastWindow.stop ≤ itemCount`) and obeys the capacity bound.  Without
that proviso the hysteresis shortcut can return a stale window with
`end > itemCount` after the item list shrinks (see the counterexample). -/
theorem useVirtualList_window_invariant
    (cursor itemCount itemHeight containerHeight overscan : Nat) (refs : VirtualListRefs) :
    (itemCount = 0 →
      (useVirtualListWindow cursor itemCount itemHeight containerHeight overscan refs).1 =
        ⟨0, 0⟩) ∧
    (0 < itemCount → cursor < itemCount → 0 < itemHeight → 0 < containerHeight →
      refs.lastWindow.stop ≤ itemCount →
      refs.lastWindow.stop - refs.lastWindow.start ≤
        max 1 (containerHeight / itemHeight) + overscan * 2 →
      (useVirtualListWindow cursor itemCount itemHeight containerHeight overscan
          refs).1.start ≤ cursor ∧
      cursor <
        (useVirtualListWindow cursor itemCount itemHeight containerHeight overscan
          refs).1.stop ∧
      (useVirtualListWindow cursor itemCount itemHeight containerHeight overscan
          refs).1.stop ≤ itemCount ∧
      (useVirtualListWindow cursor itemCount itemHeight containerHeight overscan
          refs).1.stop -
        (useVirtualListWindow cursor itemCount itemHeight containerHeight overscan
          refs).1.start ≤ itemCount ∧
      (useVirtualListWindow cursor itemCount itemHeight containerHeight overscan
          refs).1.stop -
        (useVirtualListWindow cursor itemCount itemHeight containerHeight overscan
          refs).1.start ≤
        max 1 (containerHeight / itemHeight) + overscan * 2) := by
  constructor
  · intro h0
    subst h0
    simp [useVirtualListWindow]
  · intro hpos hcur hih hch hstop hbound
    simp only [useVirtualListWindow, cursorCenteredWindow]
    set v := max 1 (containerHeight / itemHeight) with hvdef
    have hv1 : 1 ≤ v := le_max_left _ _
    clear hvdef
    split
    · next hfits =>
        dsimp only
        omega
    · next hnofit =>
        split
        · next hshort =>
            dsimp only
            omega
        · next hrest =>
            dsimp only
            omega

/-- Witness for C1: a hysteresis invocation on an unshrunk 20-item list
(cursor 6, previous window `{5, 14}` stored at cursor 6) satisfies the
full invariant. -/
theorem useVirtualList_window_invariant_witness :
    (useVirtualListWindow 6 20 3 15 2 ⟨6, ⟨5, 14⟩⟩).1.start ≤ 6 ∧
    6 < (useVirtualListWindow 6 20 3 15 2 ⟨6, ⟨5, 14⟩⟩).1.stop ∧
    (useVirtualListWindow 6 20 3 15 2 ⟨6, ⟨5, 14⟩⟩).1.stop ≤ 20 ∧
    (useVirtualListWindow 6 20 3 15 2 ⟨6, ⟨5, 14⟩⟩).1.stop -
      (useVirtualListWindow 6 20 3 15 2 ⟨6, ⟨5, 14⟩⟩).1.start ≤ 20 ∧
    (useVirtualListWindow 6 20 3 15 2 ⟨6, ⟨5, 14⟩⟩).1.stop -
      (useVirtualListWindow 6 20 3 15 2 ⟨6, ⟨5, 14⟩⟩).1.start ≤ max 1 (15 / 3) + 2 * 2 :=
  (useVirtualList_window_invariant 6 20 3 15 2 ⟨6, ⟨5, 14⟩⟩).2 (by decide) (by decide)
    (by decide) (by decide) (by decide) (by decide)

/-- Counterexample to C1 as stated.  A first invocation on a 20-item list
(cursor 9, itemHeight 3, containerHeight 15, overscan 2) stores the window
`{5, 14}`; after the list shrinks to 10 items the next invocation — with
the valid cursor 9 ∈ [0, 10), itemHeight 3 > 0, containerHeight 15 > 0 —
takes the hysteresis shortcut and returns that stored window, whose end 14
exceeds itemCount = 10. -/
theorem useVirtualList_window_invariant_cex :
    (useVirtualListWindow 9 20 3 15 2 ⟨9, ⟨0, 0⟩⟩).2 =
      ⟨9, ⟨5, 14⟩⟩ ∧
    9 < 10 ∧
    ¬ ((useVirtualListWindow 9 10 3 15 2
        (useVirtualListWindow 9 20 3 15 2 ⟨9, ⟨0, 0⟩⟩).2).1.stop ≤ 10) := by decide

/-- C8 (amended).  Hysteresis of the window calculation: whenever
`visibleCapacity < itemCount`, if the cursor moved fewer than 3 positions
since the last recomputation and still lies inside the previous window,
the identical previous window values are returned and the refs are left
unchanged; whenever the cursor moved 3 or more positions or lies outside
the previous window, the result is the cursor-centered formula; and in the
windowed case the returned window always satisfies
`start ≤ cursor < end`, so the shortcut is never applied when that would
be violated.  (When `visibleCapacity ≥ itemCount` the calculator returns
`{0, itemCount}` regardless of the previous window — the unguarded claim
fails there, see the counterexample.) -/
theorem useVirtualList_hysteresis
    (cursor itemCount itemHeight containerHeight overscan : Nat) (refs : VirtualListRefs) :
    (max 1 (containerHeight / itemHeight) < itemCount →
      ((cursor : Int) - (refs.lastCursor : Int)).natAbs < 3 →
      refs.lastWindow.start ≤ cursor → cursor < refs.lastWindow.stop →
      useVirtualListWindow cursor itemCount itemHeight containerHeight overscan refs =
        (refs.lastWindow, refs)) ∧
    ((3 ≤ ((cursor : Int) - (refs.lastCursor : Int)).natAbs ∨
        cursor < refs.lastWindow.start ∨ refs.lastWindow.stop ≤ cursor) →
      (useVirtualListWindow cursor itemCount itemHeight containerHeight overscan refs).1 =
        cursorCenteredWindow cursor itemCount (max 1 (containerHeight / itemHeight))
          overscan) ∧
    (max 1 (containerHeight / itemHeight) < itemCount → cursor < itemCount →
      (useVirtualListWindow cursor itemCount itemHeight containerHeight overscan
          refs).1.start ≤ cursor ∧
      cursor <
        (useVirtualListWindow cursor itemCount itemHeight containerHeight overscan
          refs).1.stop) := by
  simp only [useVirtualListWindow, cursorCenteredWindow]
  set v := max 1 (containerHeight / itemHeight) with hvdef
  have hv1 : 1 ≤ v := le_max_left _ _
  clear hvdef
  refine ⟨?_, ?_, ?_⟩
  · intro hw hd hs he
    rw [if_neg (Nat.not_le.mpr hw), if_pos ⟨hd, hs, he⟩]
  · intro hcase
    split
    · next hfits =>
        dsimp only
        rw [Window.mk.injEq]
        omega
    · next hnofit =>
        split
        · next hcond =>
            exfalso
            obtain ⟨h1, h2, h3⟩ := hcond
            rcases hcase with h | h | h <;> omega
        · next hcond => rfl
  · intro hw hcur
    split
    · next hfits => omega
    · next hnofit =>
        split
        · next hcond =>
            dsimp only
            exact ⟨hcond.2.1, hcond.2.2⟩
        · next hcond =>
            dsimp only
            omega

/-- Witness for C8: with a 20-item list, visibleCapacity 5, previous
window `{3, 12}` stored at cursor 7, a move to cursor 6 (delta 1, inside
the window) returns the identical window and leaves the refs unchanged. -/
theorem useVirtualList_hysteresis_witness :
    useVirtualListWindow 6 20 3 15 2 ⟨7, ⟨3, 12⟩⟩ = (⟨3, 12⟩, ⟨7, ⟨3, 12⟩⟩) :=
  (useVirtualList_hysteresis 6 20 3 15 2 ⟨7, ⟨3, 12⟩⟩).1 (by decide) (by decide)
    (by decide) (by decide)

/-- Counterexample to C8 as stated.  With previous window `{0, 9}` stored
at cursor 1, itemCount 4, itemHeight 3, containerHeight 15 (so
visibleCapacity 5 ≥ 4), cursor 2 ∈ [0, 4): the cursor moved one position
and lies inside the previous window, yet the calculator does not return
the identical previous window — the fits-all branch returns `{0, 4}`
before the hysteresis check is reached. -/
theorem useVirtualList_hysteresis_cex :
    (((2 : Int) - (1 : Int)).natAbs < 3 ∧
      (⟨1, ⟨0, 9⟩⟩ : VirtualListRefs).lastWindow.start ≤ 2 ∧
      2 < (⟨1, ⟨0, 9⟩⟩ : VirtualListRefs).lastWindow.stop) ∧
    (useVirtualListWindow 2 4 3 15 2 ⟨1, ⟨0, 9⟩⟩).1 ≠
      (⟨1, ⟨0, 9⟩⟩ : VirtualListRefs).lastWindow := by decide

/-- An evicted id can no longer be read from the normalized cache. -/
theorem readRecord_updateCacheAfterDelete (cache : List (String × RepoNode)) (id : String) :
    readRecord (updateCacheAfterDelete cache id) id = none := by
  induction cache with
  | nil => rfl
  | cons e t ih =>
      by_cases h : e.1 = id
      · simp only [updateCacheAfterDelete, readRecord, List.filter_cons] at ih ⊢
        simp [h, ih]
      · simp only [updateCacheAfterDelete, readRecord, List.filter_cons, List.find?_cons]
          at ih ⊢
        simp [h, ih]

/-- Reading a modified id from the normalized cache yields the patched
record (and `none` stays `none`). -/
theorem readRecord_updateCacheAfterVisibilityChange (cache : List (String × RepoNode))
    (id : String) (vis : Visibility) :
    readRecord (updateCacheAfterVisibilityChange cache id vis) id =
      (readRecord cache id).map (visibilityPatch vis) := by
  induction cache with
  | nil => rfl
  | cons e t ih =>
      by_cases h : e.1 = id
      · simp [updateCacheAfterVisibilityChange, readRecord, List.find?_cons, h]
      · simpa [updateCacheAfterVisibilityChange, readRecord, List.find?_cons, h] using ih

/-- C4 (amended).  After a confirmed deletion of repository `id` the
record is evicted from the normalized object cache (a point read returns
null), `id` is removed from the owned/org and the search accumulated
lists, the owned `totalCount` is decremented (clamped at zero) and the
search `totalCount` is additionally decremented when the search view is
active — but the starred list and its total count are left untouched (the
claim's "every currently accumulated source list" fails for the starred
source, see the counterexample). -/
theorem confirmDeleteNow_fanout (targetId : String) (searchActive : Bool)
    (st : RepoListState) :
    readRecord (confirmDeleteNow targetId searchActive st).cache targetId = none ∧
    (∀ r ∈ (confirmDeleteNow targetId searchActive st).items, r.id ≠ targetId) ∧
    (∀ r ∈ (confirmDeleteNow targetId searchActive st).searchItems, r.id ≠ targetId) ∧
    (confirmDeleteNow targetId searchActive st).totalCount = max 0 (st.totalCount - 1) ∧
    (confirmDeleteNow targetId searchActive st).searchTotalCount =
      (if searchActive then max 0 (st.searchTotalCount - 1) else st.searchTotalCount) ∧
    (confirmDeleteNow targetId searchActive st).starredItems = st.starredItems ∧
    (confirmDeleteNow targetId searchActive st).starredTotalCount = st.starredTotalCount := by
  refine ⟨readRecord_updateCacheAfterDelete st.cache targetId, ?_, ?_, rfl, rfl, rfl, rfl⟩
  · intro r hr
    have := (List.mem_filter.mp hr).2
    simpa using this
  · intro r hr
    have := (List.mem_filter.mp hr).2
    simpa using this

/-- Witness for C4: deleting `"r1"` from a state whose owned list holds
`"r1"` and `"r2"` keeps `"r2"` and every surviving owned entry indeed has
an id different from `"r1"`. -/
theorem confirmDeleteNow_fanout_witness :
    (⟨"r2", false, 0, Visibility.PUBLIC, false⟩ : RepoNode) ∈
      (confirmDeleteNow "r1" true
        ⟨[⟨"r1", false, 0, Visibility.PRIVATE, true⟩,
          ⟨"r2", false, 0, Visibility.PUBLIC, false⟩], [], [], 2, 1, 0,
          [("r1", ⟨"r1", false, 0, Visibility.PRIVATE, true⟩)]⟩).items ∧
    (⟨"r2", false, 0, Visibility.PUBLIC, false⟩ : RepoNode).id ≠ "r1" :=
  ⟨by decide,
    (confirmDeleteNow_fanout "r1" true
        ⟨[⟨"r1", false, 0, Visibility.PRIVATE, true⟩,
          ⟨"r2", false, 0, Visibility.PUBLIC, false⟩], [], [], 2, 1, 0,
          [("r1", ⟨"r1", false, 0, Visibility.PRIVATE, true⟩)]⟩).2.1
      ⟨"r2", false, 0, Visibility.PUBLIC, false⟩ (by decide)⟩

/-- Counterexample to C4 as stated.  With the starred list currently
accumulating the record `"r1"`, a confirmed deletion of `"r1"` leaves the
starred list still containing an entry with id `"r1"` — the id is not
removed from every currently accumulated source list. -/
theorem confirmDeleteNow_fanout_cex :
    ¬ (∀ r ∈ (confirmDeleteNow "r1" false
        ⟨[], [], [⟨"r1", true, 3, Visibility.PUBLIC, false⟩], 0, 0, 1,
          [("r1", ⟨"r1", true, 3, Visibility.PUBLIC, false⟩)]⟩).starredItems,
        r.id ≠ "r1") := by decide

/-- C5 (amended).  An unstar confirmed while the starred source is the
active view removes the record from the starred list and decrements the
starred `totalCount` (clamped at zero); the owned and search lists, their
counts, and the normalized object cache are left completely untouched — so
a copy of the record in the owned list remains present but is *not*
patched, and the cache is *not* updated (the claim's patching and
cache fan-out fail, see the counterexample). -/
theorem handleUnstar_fanout (targetId : String) (st : RepoListState) :
    (∀ r ∈ (handleUnstar targetId st).starredItems, r.id ≠ targetId) ∧
    (handleUnstar targetId st).starredTotalCount = max 0 (st.starredTotalCount - 1) ∧
    (handleUnstar targetId st).items = st.items ∧
    (handleUnstar targetId st).searchItems = st.searchItems ∧
    (handleUnstar targetId st).cache = st.cache ∧
    (handleUnstar targetId st).totalCount = st.totalCount ∧
    (handleUnstar targetId st).searchTotalCount = st.searchTotalCount := by
  refine ⟨?_, rfl, rfl, rfl, rfl, rfl, rfl⟩
  intro r hr
  have := (List.mem_filter.mp hr).2
  simpa using this

/-- Witness for C5: unstarring `"r1"` in a state whose starred list holds
`"r1"` and `"keep"` leaves `"keep"`, and every surviving starred entry has
an id different from `"r1"`. -/
theorem handleUnstar_fanout_witness :
    (⟨"keep", true, 7, Visibility.PUBLIC, false⟩ : RepoNode) ∈
      (handleUnstar "r1"
        ⟨[], [], [⟨"r1", true, 5, Visibility.PUBLIC, false⟩,
          ⟨"keep", true, 7, Visibility.PUBLIC, false⟩], 0, 0, 2, []⟩).starredItems ∧
    (⟨"keep", true, 7, Visibility.PUBLIC, false⟩ : RepoNode).id ≠ "r1" :=
  ⟨by decide,
    (handleUnstar_fanout "r1"
        ⟨[], [], [⟨"r1", true, 5, Visibility.PUBLIC, false⟩,
          ⟨"keep", true, 7, Visibility.PUBLIC, false⟩], 0, 0, 2, []⟩).1
      ⟨"keep", true, 7, Visibility.PUBLIC, false⟩ (by decide)⟩

/-- Counterexample to C5 as stated.  The record `"r1"` is present in both
the owned list and the starred list and in the cache, all with
`viewerHasStarred = true`.  After the confirmed unstar from the starred
view, the owned-list copy still carries `viewerHasStarred = true` (it was
not patched to `false` as the claim requires) and the cached record is
also unchanged. -/
theorem handleUnstar_fanout_cex :
    ((handleUnstar "r1"
        ⟨[⟨"r1", true, 5, Visibility.PUBLIC, false⟩], [],
          [⟨"r1", true, 5, Visibility.PUBLIC, false⟩], 1, 0, 1,
          [("r1", ⟨"r1", true, 5, Visibility.PUBLIC, false⟩)]⟩).items.map
        (fun r => r.viewerHasStarred)) = [true] ∧
    ((readRecord (handleUnstar "r1"
        ⟨[⟨"r1", true, 5, Visibility.PUBLIC, false⟩], [],
          [⟨"r1", true, 5, Visibility.PUBLIC, false⟩], 1, 0, 1,
          [("r1", ⟨"r1", true, 5, Visibility.PUBLIC, false⟩)]⟩).cache "r1").map
        (fun r => r.viewerHasStarred)) = some true := by decide

/-- C6 (amended).  After a confirmed visibility change on record `id`: the
cached record is patched (`visibility := new value`, `isPrivate` derived
from it); if the currently active visibility filter would now exclude the
record, `id` is removed from the owned and search lists, the owned
`totalCount` is decremented (clamped at zero) and the search `totalCount`
is additionally decremented when search is active; otherwise the record is
patched in place in the owned and search lists and the counts are
unchanged.  The starred list is never touched, so the claim's "every list
containing it" fails when the starred list also holds the record (see the
counterexample). -/
theorem handleVisibilityChange_reconcile (targetId : String) (newVisibility : Visibility)
    (visibilityFilter : VisibilityFilter) (searchActive : Bool) (st : RepoListState) :
    readRecord
        (handleVisibilityChange targetId newVisibility visibilityFilter searchActive
          st).cache targetId =
      (readRecord st.cache targetId).map (visibilityPatch newVisibility) ∧
    (handleVisibilityChange targetId newVisibility visibilityFilter searchActive
        st).starredItems = st.starredItems ∧
    (handleVisibilityChange targetId newVisibility visibilityFilter searchActive
        st).starredTotalCount = st.starredTotalCount ∧
    (((visibilityFilter = VisibilityFilter.vPublic ∧ newVisibility ≠ Visibility.PUBLIC) ∨
        (visibilityFilter = VisibilityFilter.vPrivate ∧
          newVisibility ≠ Visibility.PRIVATE ∧ newVisibility ≠ Visibility.INTERNAL)) →
      (∀ r ∈ (handleVisibilityChange targetId newVisibility visibilityFilter searchActive
          st).items, r.id ≠ targetId) ∧
      (∀ r ∈ (handleVisibilityChange targetId newVisibility visibilityFilter searchActive
          st).searchItems, r.id ≠ targetId) ∧
      (handleVisibilityChange targetId newVisibility visibilityFilter searchActive
          st).totalCount = max 0 (st.totalCount - 1) ∧
      (handleVisibilityChange targetId newVisibility visibilityFilter searchActive
          st).searchTotalCount =
        (if searchActive then max 0 (st.searchTotalCount - 1)
          else st.searchTotalCount)) ∧
    (¬ ((visibilityFilter = VisibilityFilter.vPublic ∧ newVisibility ≠ Visibility.PUBLIC) ∨
        (visibilityFilter = VisibilityFilter.vPrivate ∧
          newVisibility ≠ Visibility.PRIVATE ∧ newVisibility ≠ Visibility.INTERNAL)) →
      (handleVisibilityChange targetId newVisibility visibilityFilter searchActive
          st).items =
        st.items.map (fun r =>
          if r.id == targetId then visibilityPatch newVisibility r else r) ∧
      (handleVisibilityChange targetId newVisibility visibilityFilter searchActive
          st).searchItems =
        st.searchItems.map (fun r =>
          if r.id == targetId then visibilityPatch newVisibility r else r) ∧
      (handleVisibilityChange targetId newVisibility visibilityFilter searchActive
          st).totalCount = st.totalCount ∧
      (handleVisibilityChange targetId newVisibility visibilityFilter searchActive
          st).searchTotalCount = st.searchTotalCount) := by
  by_cases hrem :
      (visibilityFilter = VisibilityFilter.vPublic ∧ newVisibility ≠ Visibility.PUBLIC) ∨
      (visibilityFilter = VisibilityFilter.vPrivate ∧
        newVisibility ≠ Visibility.PRIVATE ∧ newVisibility ≠ Visibility.INTERNAL)
  · refine ⟨?_, ?_, ?_, ?_, fun hc => absurd hrem hc⟩
    · simp only [handleVisibilityChange, if_pos hrem]
      exact readRecord_updateCacheAfterVisibilityChange st.cache targetId newVisibility
    · simp only [handleVisibilityChange, if_pos hrem]
    · simp only [handleVisibilityChange, if_pos hrem]
    · intro _
      simp only [handleVisibilityChange, if_pos hrem]
      refine ⟨?_, ?_, trivial, trivial⟩ <;> intro r hr <;>
        simpa using (List.mem_filter.mp hr).2
  · refine ⟨?_, ?_, ?_, fun hc => absurd hc hrem, ?_⟩
    · simp only [handleVisibilityChange, if_neg hrem]
      exact readRecord_updateCacheAfterVisibilityChange st.cache targetId newVisibility
    · simp only [handleVisibilityChange, if_neg hrem]
    · simp only [handleVisibilityChange, if_neg hrem]
    · intro _
      simp only [handleVisibilityChange, if_neg hrem]
      exact ⟨trivial, trivial, trivial, trivial⟩

/-- Witness for C6: changing `"r1"` to PRIVATE under an active
public-only filter removes it from the owned list — the surviving entry
`"r2"` has a different id — and the cache read of `"r1"` yields the
patched record with `visibility = PRIVATE` and `isPrivate = true`. -/
theorem handleVisibilityChange_reconcile_witness :
    (⟨"r2", false, 0, Visibility.PUBLIC, false⟩ : RepoNode) ∈
      (handleVisibilityChange "r1" Visibility.PRIVATE VisibilityFilter.vPublic false
        ⟨[⟨"r1", false, 0, Visibility.PUBLIC, false⟩,
          ⟨"r2", false, 0, Visibility.PUBLIC, false⟩], [], [], 2, 0, 0,
          [("r1", ⟨"r1", false, 0, Visibility.PUBLIC, false⟩)]⟩).items ∧
    (⟨"r2", false, 0, Visibility.PUBLIC, false⟩ : RepoNode).id ≠ "r1" :=
  ⟨by decide,
    ((handleVisibilityChange_reconcile "r1" Visibility.PRIVATE VisibilityFilter.vPublic
        false
        ⟨[⟨"r1", false, 0, Visibility.PUBLIC, false⟩,
          ⟨"r2", false, 0, Visibility.PUBLIC, false⟩], [], [], 2, 0, 0,
          [("r1", ⟨"r1", false, 0, Visibility.PUBLIC, false⟩)]⟩).2.2.2.1
      (Or.inl ⟨rfl, by decide⟩)).1
      ⟨"r2", false, 0, Visibility.PUBLIC, false⟩ (by decide)⟩

/-- Counterexample to C6 as stated.  The starred list currently holds the
record `"r1"` with visibility PUBLIC; after a confirmed change of `"r1"`
to PRIVATE under the `all` filter (no removal), the starred-list copy
still shows PUBLIC — the record is not patched in every list containing
it. -/
theorem handleVisibilityChange_reconcile_cex :
    ((handleVisibilityChange "r1" Visibility.PRIVATE VisibilityFilter.vAll false
        ⟨[], [], [⟨"r1", false, 0, Visibility.PUBLIC, false⟩], 0, 0, 1, []⟩).starredItems.map
      (fun r => r.visibility)) = [Visibility.PUBLIC] ∧
    Visibility.PUBLIC ≠ Visibility.PRIVATE := by decide

/-- C2 (amended).  For every successful page fetch on any accumulator
source: if `reset` is true or the pagination cursor is null the
accumulated items become exactly the page's nodes, otherwise the page's
nodes are appended in order; `endCursor`, `hasNextPage` and `totalCount`
are set to the page's values.  `markFetched` is called if and only if the
cursor was null — for the owned/org and search sources; the starred fetch
never calls `markFetched` (see the counterexample). -/
theorem fetchPage_success_updates (after : Option String) (reset : Bool)
    (page : ReposPageResult) (st : SourceAccum) :
    (fetchPage after reset (Except.ok page) st).1.items =
      (if reset || after.isNone then page.nodes else st.items ++ page.nodes) ∧
    (fetchPage after reset (Except.ok page) st).1.endCursor = page.endCursor ∧
    (fetchPage after reset (Except.ok page) st).1.hasNextPage = page.hasNextPage ∧
    (fetchPage after reset (Except.ok page) st).1.totalCount = page.totalCount ∧
    (fetchPage after reset (Except.ok page) st).2 = after.isNone ∧
    (fetchSearchPage after reset (Except.ok page) st).1.items =
      (if reset || after.isNone then page.nodes else st.items ++ page.nodes) ∧
    (fetchSearchPage after reset (Except.ok page) st).1.endCursor = page.endCursor ∧
    (fetchSearchPage after reset (Except.ok page) st).1.hasNextPage = page.hasNextPage ∧
    (fetchSearchPage after reset (Except.ok page) st).1.totalCount = page.totalCount ∧
    (fetchSearchPage after reset (Except.ok page) st).2 = after.isNone ∧
    (fetchStarredRepositories after reset (Except.ok page) st).1.items =
      (if reset || after.isNone then page.nodes else st.items ++ page.nodes) ∧
    (fetchStarredRepositories after reset (Except.ok page) st).1.endCursor =
      page.endCursor ∧
    (fetchStarredRepositories after reset (Except.ok page) st).1.hasNextPage =
      page.hasNextPage ∧
    (fetchStarredRepositories after reset (Except.ok page) st).1.totalCount =
      page.totalCount ∧
    (fetchStarredRepositories after reset (Except.ok page) st).2 = false :=
  ⟨rfl, rfl, rfl, rfl, rfl, rfl, rfl, rfl, rfl, rfl, rfl, rfl, rfl, rfl, rfl⟩

/-- Counterexample to C2 as stated.  A successful first-page fetch (null
cursor) on the starred source does not call `markFetched`, although the
claim requires every first-page fetch on any accumulator source to do
so. -/
theorem fetchPage_success_updates_cex :
    ¬ ((fetchStarredRepositories none true
        (Except.ok ⟨[⟨"r1", true, 1, Visibility.PUBLIC, false⟩], some "c1", true, 5⟩)
        ⟨[], none, false, 0, none⟩).2 = true) := by decide

/-- C7 (confirmed).  A page fetch failing with a transport error leaves
the accumulator's prior state completely untouched — items, endCursor,
hasNextPage and totalCount are identical before and after — and the error
is surfaced (a non-null error message is set) rather than silently
swallowed, on all three sources. -/
theorem fetchPage_failure_preserves_state (after : Option String) (reset : Bool)
    (msg : String) (st : SourceAccum) :
    (fetchPage after reset (Except.error msg) st).1.items = st.items ∧
    (fetchPage after reset (Except.error msg) st).1.endCursor = st.endCursor ∧
    (fetchPage after reset (Except.error msg) st).1.hasNextPage = st.hasNextPage ∧
    (fetchPage after reset (Except.error msg) st).1.totalCount = st.totalCount ∧
    (fetchPage after reset (Except.error msg) st).1.error.isSome = true ∧
    (fetchSearchPage after reset (Except.error msg) st).1.items = st.items ∧
    (fetchSearchPage after reset (Except.error msg) st).1.endCursor = st.endCursor ∧
    (fetchSearchPage after reset (Except.error msg) st).1.hasNextPage = st.hasNextPage ∧
    (fetchSearchPage after reset (Except.error msg) st).1.totalCount = st.totalCount ∧
    (fetchSearchPage after reset (Except.error msg) st).1.error.isSome = true ∧
    (fetchStarredRepositories after reset (Except.error msg) st).1.items = st.items ∧
    (fetchStarredRepositories after reset (Except.error msg) st).1.endCursor =
      st.endCursor ∧
    (fetchStarredRepositories after reset (Except.error msg) st).1.hasNextPage =
      st.hasNextPage ∧
    (fetchStarredRepositories after reset (Except.error msg) st).1.totalCount =
      st.totalCount ∧
    (fetchStarredRepositories after reset (Except.error msg) st).1.error.isSome = true :=
  ⟨rfl, rfl, rfl, rfl, rfl, rfl, rfl, rfl, rfl, rfl, rfl, rfl, rfl, rfl, rfl⟩

/-- C3 (confirmed; the freshness store is modelled from the spec because
`src/services/apolloMeta` is absent from the sources).  For a first-page
fetch where the caller does not override the policy: the resolved policy
is cache-first iff `isFresh` holds for the derived freshness key — with
the 30-minute default TTL for list/browse queries and a 90-second TTL for
search queries — and network-only otherwise; a manual refresh always
forces network-only.  `isFresh` itself holds iff a record exists for the
key and its timestamp is within the TTL. -/
theorem firstPage_policy_resolution (store : List (String × Int)) (now : Int)
    (key : String) :
    (listFirstPagePolicy store now key = FetchPolicy.cacheFirst ↔
      isFresh store now key DEFAULT_APOLLO_TTL_MS = true) ∧
    (searchFirstPagePolicy store now key = FetchPolicy.cacheFirst ↔
      isFresh store now key (90 * 1000) = true) ∧
    manualRefreshPolicy = FetchPolicy.networkOnly ∧
    (∀ ttlMs : Int, isFresh store now key ttlMs = true ↔
      ∃ e, store.find? (fun x => x.1 == key) = some e ∧ now - e.2 ≤ ttlMs) := by
  refine ⟨?_, ?_, rfl, ?_⟩
  · unfold listFirstPagePolicy
    split <;> simp_all
  · unfold searchFirstPagePolicy
    split <;> simp_all
  · intro ttlMs
    unfold isFresh
    cases hfind : store.find? (fun x => x.1 == key) with
    | none => simp
    | some e => simp

/-- C9 (confirmed).  The prefetch trigger fires iff `hasNextPage` is true,
no fetch for that source is loading, the loaded item count is positive and
`cursor ≥ floor(loadedCount · 0.8)`; in particular with
`loadedCount = 15`, `cursor = 12`, `hasNextPage = true`, `loading = false`
it fires, and with `loading = true` it does not. -/
theorem prefetch_trigger_iff :
    (∀ (cursor loadedCount : Nat) (hasNextPage loading : Bool),
      prefetchFires cursor loadedCount hasNextPage loading =
        shouldPrefetch cursor loadedCount hasNextPage loading) ∧
    prefetchFires 12 15 true false = true ∧
    prefetchFires 12 15 true true = false ∧
    shouldPrefetch 12 15 true false = true ∧
    shouldPrefetch 12 15 true true = false := by
  refine ⟨?_, by decide, by decide, by decide, by decide⟩
  intro cursor loadedCount hasNextPage loading
  cases hasNextPage <;> cases loading <;>
    simp [prefetchFires, shouldPrefetch, nearEnd, prefetchThreshold]

/-- Every single reconciliation operation keeps the three total counts
non-negative whenever they were non-negative before. -/
theorem applyReconcileOp_counts_nonneg (op : ReconcileOp) (st : RepoListState)
    (h1 : 0 ≤ st.totalCount) (h2 : 0 ≤ st.searchTotalCount)
    (h3 : 0 ≤ st.starredTotalCount) :
    0 ≤ (applyReconcileOp op st).totalCount ∧
    0 ≤ (applyReconcileOp op st).searchTotalCount ∧
    0 ≤ (applyReconcileOp op st).starredTotalCount := by
  cases op with
  | delete targetId searchActive =>
      refine ⟨?_, ?_, ?_⟩ <;>
        simp only [applyReconcileOp, confirmDeleteNow] <;> omega
  | unstar targetId =>
      refine ⟨?_, ?_, ?_⟩ <;> simp only [applyReconcileOp, handleUnstar] <;> omega
  | visibilityChange targetId newVisibility visibilityFilter searchActive =>
      refine ⟨?_, ?_, ?_⟩ <;>
        simp only [applyReconcileOp, handleVisibilityChange] <;>
        first
          | omega
          | (split_ifs <;> dsimp only <;> omega)

/-- C10 (confirmed).  Every reconciliation operation that decrements a
stored total count (delete, unstar from the starred view, visibility
change) clamps the decrement at zero, so under any sequence of these
operations each source's `totalCount` stays non-negative, including when
an operation is applied with a count already at 0. -/
theorem totalCount_nonneg (ops : List ReconcileOp) (st : RepoListState)
    (h1 : 0 ≤ st.totalCount) (h2 : 0 ≤ st.searchTotalCount)
    (h3 : 0 ≤ st.starredTotalCount) :
    0 ≤ (runReconcileOps ops st).totalCount ∧
    0 ≤ (runReconcileOps ops st).searchTotalCount ∧
    0 ≤ (runReconcileOps ops st).starredTotalCount := by
  induction ops generalizing st with
  | nil => exact ⟨h1, h2, h3⟩
  | cons op t ih =>
      have h := applyReconcileOp_counts_nonneg op st h1 h2 h3
      exact ih (applyReconcileOp op st) h.1 h.2.1 h.2.2

/-- Witness for C10: a delete, an unstar and a filtered-out visibility
change applied in sequence to a state whose counts are already all 0 keep
every count at (hence above) zero. -/
theorem totalCount_nonneg_witness :
    0 ≤ (runReconcileOps
        [ReconcileOp.delete "a" true, ReconcileOp.unstar "a",
          ReconcileOp.visibilityChange "a" Visibility.PRIVATE VisibilityFilter.vPublic
            true]
        ⟨[], [], [], 0, 0, 0, []⟩).totalCount ∧
    0 ≤ (runReconcileOps
        [ReconcileOp.delete "a" true, ReconcileOp.unstar "a",
          ReconcileOp.visibilityChange "a" Visibility.PRIVATE VisibilityFilter.vPublic
            true]
        ⟨[], [], [], 0, 0, 0, []⟩).searchTotalCount ∧
    0 ≤ (runReconcileOps
        [ReconcileOp.delete "a" true, ReconcileOp.unstar "a",
          ReconcileOp.visibilityChange "a" Visibility.PRIVATE VisibilityFilter.vPublic
            true]
        ⟨[], [], [], 0, 0, 0, []⟩).starredTotalCount :=
  totalCount_nonneg
    [ReconcileOp.delete "a" true, ReconcileOp.unstar "a",
      ReconcileOp.visibilityChange "a" Visibility.PRIVATE VisibilityFilter.vPublic true]
    ⟨[], [], [], 0, 0, 0, []⟩ (by decide) (by decide) (by decide)
